import Mathlib

/-!
Shallow embedding of `src/at45.c` (AT45 DataFlash configuration utility).

The SPI transport (the `ioctl(fd, SPI_IOC_MESSAGE(...), ...)` call hidden in
the `DO_XFER` macro) is modelled as a parameter: `none` means the ioctl
returned a negative value (failure), `some recv` means it succeeded and
populated the receive buffer with the bytes `recv` (each 0..255, buffer
length fixed by each command's declaration).

The C code reads multi-byte values out of the receive buffer with casts like
`*(uint32_t *)(recv_data + 1)`; we model the little-endian host the program
targets, so those casts assemble the bytes least-significant first.
Storing the `uint32_t` result of `get_jedec_id` into the `int` variable `id`
in `main` is modelled by `toInt32` (two's-complement wraparound, the behavior
of the compilers this code is built with), and the implicit conversion of
`id` back to `uint32_t` in the comparison `chips[i].jedec_id == id` by
`toUInt32c`.

Observable behavior of a run (SPI commands issued, the settling sleep, and
console output) is recorded as a list of `Event`s; `main_run` mirrors
`main`'s sequencing from line 180 (`id = get_jedec_id(fd)`) to the end,
i.e. a run in which the device was opened successfully.  Because the C
variable `bool show_status` (line 134) is never initialized, the value it
holds when no `-s` flag was given is indeterminate; `main_run` takes that
residue as the explicit parameter `junk`.
-/

namespace AT45

/-- Command opcodes and constants from the `#define`s at the top of at45.c. -/
def JEDEC_ID_CMD : Nat := 0x9F

def AT45_STATUS_CMD : Nat := 0xD7

def AT45_PAGE_256 : Nat := 0xA6

def AT45_PAGE_264 : Nat := 0xA7

/-- The 3-byte command stem `#define AT45_SET_PAGE_SZ 0x3D, 0x2A, 0x80`. -/
def AT45_SET_PAGE_SZ : List Nat := [0x3D, 0x2A, 0x80]

/-- `#define SPI_CMD_DELAY 100000` — microseconds passed to `usleep`. -/
def SPI_CMD_DELAY : Nat := 100000

def UINT32_MAX : Nat := 4294967295

/-- The chip identification table `chips[]`: JEDEC id, name; the `{0, NULL}`
sentinel is kept as an entry with `none` for the name, exactly as in the
source. -/
def chips : List (Nat × Option String) :=
  [(0x0100241F, some "Adesto AT45DB041E"), (0, none)]

/-- The status bit descriptor table `status_bits[]`: for each bit position
0..15, the pair (description for bit = 0, description for bit = 1). -/
def status_bits : List (String × String) :=
  [ ("Device is configured for standard DataFlash page size (264 bytes)",
     "Device is configured for \x27power of 2\x27 binary page size (256 bytes)"),
    ("Sector protection is disabled",
     "Sector protection is enabled"),
    ("Unknown density", "4-Mbit"),
    ("Unknown density", "4-Mbit"),
    ("Unknown density", "4-Mbit"),
    ("4-Mbit", "Unknown density"),
    ("Main memory page data matches buffer data",
     "Main memory page data does not match buffer data"),
    ("Device is busy with an internal operation",
     "Device is ready"),
    ("No sectors are erase suspended",
     "A sector is erase suspended"),
    ("No program operation has been suspended while using Buffer 1",
     "A sector is program suspended while using Buffer 1"),
    ("No program operation has been suspended while using Buffer 2",
     "A sector is program suspended while using Buffer 2"),
    ("Sector Lockdown command is disabled",
     "Sector Lockdown command is enabled"),
    ("Reserved", "Reserved"),
    ("Erase or program operation was successful",
     "Erase or program error detected"),
    ("Reserved", "Reserved"),
    ("Device is busy with an internal operation",
     "Device is ready") ]

/-- Observable events of a run: the three SPI commands (with the transmitted
bytes), the `usleep` settling delay, `perror` reports from inside the
operations, and each distinct `printf` of the main flow. -/
inductive Event where
  | xferJedec (send : List Nat)
  | xferPageSz (send : List Nat)
  | xferStatus (send : List Nat)
  | sleepUs (usec : Nat)
  | perr (fn : String)
  | checking (name : String)
  | found (name : String)
  | noChips (idHex : String)
  | failPageSz
  | failStatus
  | statusHex (hex : String)
  | statusBit (idx val : Nat) (descr : String)
deriving DecidableEq

/-- Outcome of each of the three transfer ioctls a run can perform. -/
structure Transport where
  jedec : Option (List Nat)
  pagesz_ok : Bool
  status : Option (List Nat)

/-- Little-endian reassembly of a `uint16_t` from two buffer bytes. -/
def le16 (b0 b1 : Nat) : Nat := b0 + 256 * b1

/-- Little-endian reassembly of a `uint32_t` from four buffer bytes. -/
def le32 (b0 b1 b2 b3 : Nat) : Nat :=
  b0 + 256 * b1 + 65536 * b2 + 16777216 * b3

/-- Conversion of a `uint32_t` value to C `int` (storing `get_jedec_id`'s
result into `int id`): two's-complement wraparound at 2^32. -/
def toInt32 (n : Nat) : Int :=
  if n % 4294967296 < 2147483648 then ((n % 4294967296 : Nat) : Int)
  else ((n % 4294967296 : Nat) : Int) - 4294967296

/-- Conversion of a C `int` back to `uint32_t` (the usual arithmetic
conversion applied to `id` in `chips[i].jedec_id == id`): reduction
modulo 2^32. -/
def toUInt32c (z : Int) : Nat := (z % 4294967296).toNat

/-- `uint8_t send_data[6] = { JEDEC_ID_CMD };` -/
def jedec_send : List Nat := [JEDEC_ID_CMD, 0, 0, 0, 0, 0]

/-- `get_jedec_id` (at45.c:94-102): issues the 6-byte JEDEC-id transfer; on
ioctl failure `DO_XFER` calls `perror(__func__)` and returns `UINT32_MAX`;
on success it returns `*(uint32_t *)(recv_data + 1)` — the little-endian
value of receive bytes 1..4, skipping the dummy byte echoed at index 0. -/
def get_jedec_id (xfer : Option (List Nat)) : List Event × Nat :=
  match xfer with
  | none => ([Event.xferJedec jedec_send, Event.perr "get_jedec_id"], UINT32_MAX)
  | some recv =>
    ([Event.xferJedec jedec_send],
     le32 (recv.getD 1 0) (recv.getD 2 0) (recv.getD 3 0) (recv.getD 4 0))

/-- `uint8_t send_data[3] = { AT45_STATUS_CMD };` -/
def status_send : List Nat := [AT45_STATUS_CMD, 0, 0]

/-- `at45_get_status` (at45.c:104-112): issues the 3-byte status transfer; on
ioctl failure returns `-1`; on success returns
`*(uint16_t *)(recv_data + 1)` — the little-endian value of receive
bytes 1..2 — which as an `int` is in 0..65535. -/
def at45_get_status (xfer : Option (List Nat)) : List Event × Int :=
  match xfer with
  | none => ([Event.xferStatus status_send, Event.perr "at45_get_status"], -1)
  | some recv =>
    ([Event.xferStatus status_send],
     ((le16 (recv.getD 1 0) (recv.getD 2 0) : Nat) : Int))

/-- The bytes transmitted by `at45_set_page_sz`:
`uint8_t send_data[4] = { AT45_SET_PAGE_SZ, 0 };` followed by
`send_data[3] = page_sz;` (the parameter is `uint8_t`, hence `% 256`). -/
def at45_set_page_sz_send (page_sz : Nat) : List Nat :=
  (AT45_SET_PAGE_SZ ++ [0]).set 3 (page_sz % 256)

/-- `at45_set_page_sz` (at45.c:114-123): issues the 4-byte transfer; on ioctl
failure `DO_XFER` calls `perror` and returns `true` (error); on success the
function returns `false`. -/
def at45_set_page_sz (page_sz : Nat) (xferOk : Bool) : List Event × Bool :=
  if xferOk then ([Event.xferPageSz (at45_set_page_sz_send page_sz)], false)
  else ([Event.xferPageSz (at45_set_page_sz_send page_sz),
         Event.perr "at45_set_page_sz"], true)

/-- Parsing of the `--pagesize`/`-p` argument (at45.c:149-156):
`strcmp(optarg, "256")` selects `AT45_PAGE_256`, anything else
`AT45_PAGE_264`. -/
def parse_pagesize (optarg : String) : Nat :=
  if optarg = "256" then AT45_PAGE_256 else AT45_PAGE_264

/-- One hex digit, uppercase, as produced by `printf` with `%X`. -/
def hexDigit (n : Nat) : Char :=
  "0123456789ABCDEF".toList.getD n (Char.ofNat 63)

/-- Zero-padded uppercase hex rendering of `n` to width `w`. -/
def hexN (w n : Nat) : String :=
  String.mk ((List.range w).map (fun k => hexDigit (n / 16 ^ (w - 1 - k) % 16)))

/-- `printf("%08X", ...)` -/
def hex8 (n : Nat) : String := hexN 8 n

/-- `printf("%04X", ...)` -/
def hex4 (n : Nat) : String := hexN 4 n

/-- The chip-scan loop of `main` (at45.c:182-193): walks `chips[]` until the
`NULL`-name sentinel, printing "Checking ..." for each entry, comparing
`chips[i].jedec_id == id` (with `id` converted back to `uint32_t`), and
printing "Found ..." and breaking on a match. Returns the emitted events
and the matched name, if any. -/
def chip_scan : List (Nat × Option String) → Int → List Event × Option String
  | [], _ => ([], none)
  | (jid, oname) :: rest, id =>
    match oname with
    | none => ([], none)
    | some name =>
      if jid = toUInt32c id then
        ([Event.checking name, Event.found name], some name)
      else
        let r := chip_scan rest id
        (Event.checking name :: r.1, r.2)

/-- `bool value = (status >> i) & 1;` -/
def bitVal (status i : Nat) : Nat := (status >>> i) % 2

/-- The inner array access `descr[value]`: in bounds only for 0 and 1. -/
def descr_at (d : String × String) : Nat → Option String
  | 0 => some d.1
  | 1 => some d.2
  | _ => none

/-- One iteration of the decode-and-print loop (at45.c:214-218): both array
accesses (`status_bits[i]` and `.descr[value]`) are modelled as optional so
that in-bounds access is a provable property, not an assumption. -/
def statusLine (status i : Nat) : Option (Nat × Nat × String) :=
  match status_bits.get? i with
  | none => none
  | some d =>
    match descr_at d (bitVal status i) with
    | none => none
    | some s => some (i, bitVal status i, s)

/-- The full decode loop `for (i = 15; i >= 0; --i)`: the lines in emission
order, bit 15 first. -/
def statusLines (status : Nat) : List (Option (Nat × Nat × String)) :=
  (List.range 16).reverse.map (statusLine status)

/-- The printed decoded lines, as events. -/
def statusPrintLines (status : Nat) : List Event :=
  (statusLines status).filterMap
    (fun o => o.map (fun t => Event.statusBit t.1 t.2.1 t.2.2))

/-- The status block of `main` (at45.c:206-219): if `show_status` is set,
read the status register; a negative result prints the failure message and
jumps to `out` with `EXIT_FAILURE`; otherwise print the hex value and the 16
decoded lines and fall through to `ret = EXIT_SUCCESS`. -/
def status_report (show_status : Bool) (xfer : Option (List Nat)) :
    List Event × Nat :=
  if show_status then
    let sres := at45_get_status xfer
    if sres.2 < 0 then (sres.1 ++ [Event.failStatus], 1)
    else
      (sres.1 ++ Event.statusHex (hex4 sres.2.toNat) ::
         statusPrintLines sres.2.toNat, 0)
  else ([], 0)

/-- `main` from line 180 to the end (device already opened): read the JEDEC
id into `int id`, scan the chip table, and on a match run the optional
page-size block (with the `usleep(SPI_CMD_DELAY)` settling delay on success)
and the optional status block.  `pagesize` is `0` when no `-p` flag was
given; `sFlag` records whether `-s` was given, and `junk` is the
indeterminate value the uninitialized `show_status` holds when it was not. -/
def main_run (pagesize : Nat) (sFlag junk : Bool) (tr : Transport) :
    List Event × Nat :=
  let jres := get_jedec_id tr.jedec
  let id : Int := toInt32 jres.2
  let scan := chip_scan chips id
  let ev0 := jres.1 ++ scan.1
  match scan.2 with
  | none => (ev0 ++ [Event.noChips (hex8 (toUInt32c id))], 1)
  | some _ =>
    let show_status := if sFlag then true else junk
    if pagesize ≠ 0 then
      let pres := at45_set_page_sz pagesize tr.pagesz_ok
      if pres.2 then (ev0 ++ pres.1 ++ [Event.failPageSz], 1)
      else
        let srep := status_report show_status tr.status
        (ev0 ++ pres.1 ++ Event.sleepUs SPI_CMD_DELAY :: srep.1, srep.2)
    else
      let srep := status_report show_status tr.status
      (ev0 ++ srep.1, srep.2)

/-- Is this event an SPI status-read transfer? -/
def isStatusXfer : Event → Bool
  | Event.xferStatus _ => true
  | _ => false

/-- Is this event an SPI page-size-write transfer? -/
def isPageSzXfer : Event → Bool
  | Event.xferPageSz _ => true
  | _ => false

/-- Is this event any piece of status output (the status transfer, the hex
line, a decoded bit line, or the status failure message)? -/
def isStatusOutput : Event → Bool
  | Event.xferStatus _ => true
  | Event.statusHex _ => true
  | Event.statusBit _ _ _ => true
  | Event.failStatus => true
  | _ => false

/-- A transport on which all three transfers succeed and the chip answers
with the AT45DB041E JEDEC id and an all-zero status register. -/
def tr_ok : Transport :=
  ⟨some [0, 0x1F, 0x24, 0x00, 0x01, 0], true, some [0, 0, 0]⟩

/-! ### Helper lemmas -/

/-- The events emitted by `get_jedec_id` contain no status-read and no
page-size SPI transfer. -/
theorem get_jedec_id_no_cmd (x : Option (List Nat)) :
    ∀ e ∈ (get_jedec_id x).1, isStatusXfer e = false ∧ isPageSzXfer e = false := by
  cases x <;> intro e he <;> simp [get_jedec_id] at he
  · rcases he with h | h <;> subst h <;> exact ⟨rfl, rfl⟩
  · subst he; exact ⟨rfl, rfl⟩

/-- The events emitted by the chip-scan loop contain no status-read and no
page-size SPI transfer. -/
theorem chip_scan_no_cmd (l : List (Nat × Option String)) (id : Int) :
    ∀ e ∈ (chip_scan l id).1, isStatusXfer e = false ∧ isPageSzXfer e = false := by
  induction l with
  | nil => intro e he; simp [chip_scan] at he
  | cons p rest ih =>
    obtain ⟨jid, oname⟩ := p
    intro e he
    cases oname with
    | none => simp [chip_scan] at he
    | some name =>
      simp only [chip_scan] at he
      by_cases hj : jid = toUInt32c id
      · rw [if_pos hj] at he
        simp at he
        rcases he with h | h <;> subst h <;> exact ⟨rfl, rfl⟩
      · rw [if_neg hj] at he
        rcases List.mem_cons.mp he with h | h
        · subst h; exact ⟨rfl, rfl⟩
        · exact ih e h

/-! ### C1: page-size command bytes -/

/-- C1. Whenever a page-size change is requested, the page-size operation
transmits exactly the 4 bytes `{0x3D, 0x2A, 0x80, mode}` where `mode` is
`0xA6` if the `--pagesize` argument string is literally "256" and `0xA7`
for every other argument string. -/
theorem C1_set_page_size_bytes (s : String) (ok : Bool) :
    at45_set_page_sz_send (parse_pagesize s) =
      [0x3D, 0x2A, 0x80, if s = "256" then 0xA6 else 0xA7] ∧
    Event.xferPageSz [0x3D, 0x2A, 0x80, if s = "256" then 0xA6 else 0xA7] ∈
      (at45_set_page_sz (parse_pagesize s) ok).1 ∧
    (∀ b, Event.xferPageSz b ∈ (at45_set_page_sz (parse_pagesize s) ok).1 →
      b = [0x3D, 0x2A, 0x80, if s = "256" then 0xA6 else 0xA7]) := by
  by_cases h : s = "256" <;>
    cases ok <;>
      simp [parse_pagesize, h, at45_set_page_sz, at45_set_page_sz_send,
        AT45_SET_PAGE_SZ, AT45_PAGE_256, AT45_PAGE_264]

/-! ### C2: JEDEC id assembly and table lookup -/

/-- C2. For every successful transfer whose receive buffer holds the bytes
`[dummy, 0x1F, 0x24, 0x00, 0x01, ...]`, `get_jedec_id` skips the single
leading dummy byte and assembles receive bytes 1..4, least-significant byte
first, into `0x0100241F`; the chip-table scan on that value finds the entry
named "Adesto AT45DB041E". -/
theorem C2_jedec_id_lookup (dummy : Nat) (rest : List Nat) :
    (get_jedec_id (some (dummy :: 0x1F :: 0x24 :: 0x00 :: 0x01 :: rest))).2 =
      0x0100241F ∧
    (chip_scan chips (toInt32 0x0100241F)).2 = some "Adesto AT45DB041E" := by
  constructor
  · simp [get_jedec_id, le32, List.getD]
  · rfl

/-! ### C7: JEDEC read failure sentinel (corrected) -/

/-- C7 as stated is false: `get_jedec_id` returns `UINT32_MAX` not *exactly*
when the transfer ioctl fails — a successful transfer whose receive bytes
1..4 are all `0xFF` (e.g. no chip driving the bus) also yields
`UINT32_MAX`. -/
theorem C7_counterexample :
    ¬ (∀ x : Option (List Nat),
        (get_jedec_id x).2 = UINT32_MAX ↔ x = none) := by
  intro h
  have hfx : (get_jedec_id (some [0, 255, 255, 255, 255, 0])).2 = UINT32_MAX := by
    decide
  exact Option.noConfusion ((h (some [0, 255, 255, 255, 255, 0])).mp hfx)

/-- C7 amended. Whenever the transfer ioctl fails, `get_jedec_id` returns
`UINT32_MAX`, and the error is reported (`perror`) after the single transfer
attempt, with no retry: the emitted trace is exactly one JEDEC transfer
followed by the error report. -/
theorem C7_amended_fail_sentinel (x : Option (List Nat)) (h : x = none) :
    (get_jedec_id x).2 = UINT32_MAX ∧
    (get_jedec_id x).1 =
      [Event.xferJedec jedec_send, Event.perr "get_jedec_id"] := by
  subst h
  exact ⟨rfl, rfl⟩

/-- Witness for C7's amended theorem at the concrete failing transport. -/
theorem C7_amended_witness :
    (get_jedec_id none).2 = UINT32_MAX ∧
    (get_jedec_id none).1 =
      [Event.xferJedec jedec_send, Event.perr "get_jedec_id"] :=
  C7_amended_fail_sentinel none rfl

/-! ### C3 / C10: status decoding -/

/-- Evaluating one decode iteration against the table entry for its bit
position: the emitted line carries the bit index, the raw bit value, and the
description selected by the bit value. -/
theorem statusLine_spec (status i : Nat) (d : String × String)
    (hd : status_bits.get? i = some d) :
    statusLine status i =
      some (i, bitVal status i, if bitVal status i = 0 then d.1 else d.2) := by
  have h2 : bitVal status i = 0 ∨ bitVal status i = 1 :=
    Nat.mod_two_eq_zero_or_one _
  unfold statusLine
  rw [hd]
  rcases h2 with h | h <;> rw [h] <;> simp [descr_at]

/-- Every decode iteration with bit position below 16 produces a line. -/
theorem statusLine_isSome (status i : Nat) (hi : i < 16) :
    (statusLine status i).isSome = true := by
  have hd : ∃ d, status_bits.get? i = some d := by
    interval_cases i <;> exact ⟨_, rfl⟩
  obtain ⟨d, hd⟩ := hd
  rw [statusLine_spec status i d hd]
  rfl

/-- C3. For every 16-bit status value, every bit position `i` below 16, the
decode loop emits 16 lines, the line at output position `15 - i` (so the
emission order runs from bit 15 down to bit 0) is the line for bit `i`, and
that line is exactly the bit index, the raw bit value `(status >> i) & 1`,
and the descriptor string stored in `status_bits` at that (position, bit
value) pair. -/
theorem C3_status_decode (status i : Nat) (d : String × String) (hi : i < 16)
    (hd : status_bits.get? i = some d) :
    (statusLines status).length = 16 ∧
    (statusLines status).get? (15 - i) = some (statusLine status i) ∧
    statusLine status i =
      some (i, bitVal status i, if bitVal status i = 0 then d.1 else d.2) := by
  refine ⟨rfl, ?_, statusLine_spec status i d hd⟩
  interval_cases i <;> rfl

/-- Witness for C3 at status `0xABCD` and bit position 13 (the erase/program
error flag, set in `0xABCD`). -/
theorem C3_witness :
    (statusLines 0xABCD).length = 16 ∧
    (statusLines 0xABCD).get? (15 - 13) = some (statusLine 0xABCD 13) ∧
    statusLine 0xABCD 13 =
      some (13, bitVal 0xABCD 13,
        if bitVal 0xABCD 13 = 0 then
          ("Erase or program operation was successful",
           "Erase or program error detected").1
        else
          ("Erase or program operation was successful",
           "Erase or program error detected").2) :=
  C3_status_decode 0xABCD 13
    ("Erase or program operation was successful",
     "Erase or program error detected") (by decide) rfl

/-- C10. For every status value and bit position below 16, every access of
the decode-and-print loop is in bounds: the descriptor table has exactly 16
entries, the extracted bit value used as the inner index is 0 or 1, the
iteration produces a line (no out-of-bounds access), and the whole decode is
total. -/
theorem C10_decode_in_bounds (status i : Nat) (hi : i < 16) :
    status_bits.length = 16 ∧
    bitVal status i < 2 ∧
    (statusLine status i).isSome = true ∧
    (∀ o ∈ statusLines status, o.isSome = true) := by
  refine ⟨rfl, Nat.mod_lt _ (by decide), statusLine_isSome status i hi, ?_⟩
  intro o ho
  simp only [statusLines, List.mem_map] at ho
  obtain ⟨j, hj, rfl⟩ := ho
  have hj16 : j < 16 := List.mem_range.mp (List.mem_reverse.mp hj)
  exact statusLine_isSome status j hj16

/-- Witness for C10 at status `0xFFFF` and bit position 15. -/
theorem C10_witness :
    status_bits.length = 16 ∧
    bitVal 0xFFFF 15 < 2 ∧
    (statusLine 0xFFFF 15).isSome = true ∧
    (∀ o ∈ statusLines 0xFFFF, o.isSome = true) :=
  C10_decode_in_bounds 0xFFFF 15 (by decide)

/-! ### C9: signed/unsigned round trip of the JEDEC id -/

/-- The round trip `uint32_t` → `int` → `uint32_t` preserves 32-bit values. -/
theorem toUInt32c_toInt32 (raw : Nat) (h : raw < 4294967296) :
    toUInt32c (toInt32 raw) = raw := by
  unfold toInt32 toUInt32c
  split <;> omega

/-- C9. The unsigned 32-bit JEDEC result is stored into a signed `int` and
compared against each table entry's unsigned key after conversion back to
unsigned; for every raw 32-bit value the round trip is the identity, the
lookup succeeds exactly when the raw value equals the table's single real
key `0x0100241F`, and in particular the failure sentinel `0xFFFFFFFF`
always takes the no-supported-chip path. -/
theorem C9_int_roundtrip_lookup (raw : Nat) (h : raw < 4294967296) :
    toUInt32c (toInt32 raw) = raw ∧
    (((chip_scan chips (toInt32 raw)).2).isSome ↔ raw = 0x0100241F) ∧
    (chip_scan chips (toInt32 0xFFFFFFFF)).2 = none := by
  have hrt := toUInt32c_toInt32 raw h
  refine ⟨hrt, ?_, by decide⟩
  simp only [chips, chip_scan, hrt]
  by_cases hk : (0x0100241F : Nat) = raw
  · rw [if_pos hk]
    simp [hk.symm]
  · rw [if_neg hk]
    simp [chip_scan]
    exact fun hr => absurd hr.symm hk

/-- Witness for C9 at the sentinel value `0xFFFFFFFF` itself. -/
theorem C9_witness :
    toUInt32c (toInt32 0xFFFFFFFF) = 0xFFFFFFFF ∧
    (((chip_scan chips (toInt32 0xFFFFFFFF)).2).isSome ↔
      (0xFFFFFFFF : Nat) = 0x0100241F) ∧
    (chip_scan chips (toInt32 0xFFFFFFFF)).2 = none :=
  C9_int_roundtrip_lookup 0xFFFFFFFF (by decide)

/-! ### C5: unsupported chip is terminal -/

/-- C5. For every run in which the observed JEDEC id matches no entry of the
chip table, the program reports the "No supported chips found" message
carrying the raw id rendered in (zero-padded, uppercase) hexadecimal, exits
with the failure code 1, and issues no further chip-specific command —
neither a page-size write nor a status read — whatever flags were given. -/
theorem C5_no_supported_chip (pagesize : Nat) (sFlag junk : Bool)
    (tr : Transport)
    (h : (chip_scan chips (toInt32 (get_jedec_id tr.jedec).2)).2 = none) :
    (main_run pagesize sFlag junk tr).2 = 1 ∧
    Event.noChips (hex8 (toUInt32c (toInt32 (get_jedec_id tr.jedec).2))) ∈
      (main_run pagesize sFlag junk tr).1 ∧
    (∀ e ∈ (main_run pagesize sFlag junk tr).1,
      isStatusXfer e = false ∧ isPageSzXfer e = false) := by
  simp only [main_run]
  rw [h]
  refine ⟨rfl, ?_, ?_⟩
  · simp
  · intro e he
    simp only [List.append_assoc, List.mem_append] at he
    rcases he with he | he | he
    · exact get_jedec_id_no_cmd tr.jedec e he
    · exact chip_scan_no_cmd chips _ e he
    · rcases List.mem_singleton.mp he with rfl
      exact ⟨rfl, rfl⟩

/-- Witness for C5: a successful transfer answering with an id
(`0x04030201`) that is in no table entry, with both optional operations
requested. -/
theorem C5_witness :
    (main_run 0xA6 true false ⟨some [0, 1, 2, 3, 4, 5], true, some [0, 0, 0]⟩).2 = 1 ∧
    Event.noChips (hex8 (toUInt32c (toInt32
        (get_jedec_id (some [0, 1, 2, 3, 4, 5])).2))) ∈
      (main_run 0xA6 true false ⟨some [0, 1, 2, 3, 4, 5], true, some [0, 0, 0]⟩).1 ∧
    (∀ e ∈ (main_run 0xA6 true false
        ⟨some [0, 1, 2, 3, 4, 5], true, some [0, 0, 0]⟩).1,
      isStatusXfer e = false ∧ isPageSzXfer e = false) :=
  C5_no_supported_chip 0xA6 true false
    ⟨some [0, 1, 2, 3, 4, 5], true, some [0, 0, 0]⟩ (by decide)

/-! ### C6: settling delay ordering and page-size failure -/

/-- C6. For every run that requests a page-size change and identifies the
chip: if the page-size transfer succeeds, the trace splits around the
`usleep(SPI_CMD_DELAY)` settling delay (100000 µs = 100 ms) with no status
read issued before it; if the page-size transfer fails, the run exits with
the failure code 1, reports the failure, and issues no status read at all,
even when status output was requested. -/
theorem C6_settling_delay (pagesize : Nat) (sFlag junk : Bool)
    (tr : Transport) (name : String) (hps : pagesize ≠ 0)
    (hfound :
      (chip_scan chips (toInt32 (get_jedec_id tr.jedec).2)).2 = some name) :
    (tr.pagesz_ok = true →
      ∃ pre post, (main_run pagesize sFlag junk tr).1 =
          pre ++ Event.sleepUs SPI_CMD_DELAY :: post ∧
        ∀ e ∈ pre, isStatusXfer e = false) ∧
    (tr.pagesz_ok = false →
      (main_run pagesize sFlag junk tr).2 = 1 ∧
      Event.failPageSz ∈ (main_run pagesize sFlag junk tr).1 ∧
      ∀ e ∈ (main_run pagesize sFlag junk tr).1, isStatusXfer e = false) := by
  obtain ⟨trj, trpk, trs⟩ := tr
  simp only at hfound
  cases trpk with
  | true =>
    refine ⟨fun _ => ?_, fun hf => by cases hf⟩
    have htr : (main_run pagesize sFlag junk ⟨trj, true, trs⟩).1 =
        ((get_jedec_id trj).1 ++
          (chip_scan chips (toInt32 (get_jedec_id trj).2)).1 ++
          [Event.xferPageSz (at45_set_page_sz_send pagesize)]) ++
          Event.sleepUs SPI_CMD_DELAY ::
            (status_report (if sFlag then true else junk) trs).1 := by
      simp [main_run, hfound, at45_set_page_sz, hps]
    refine ⟨_, _, htr, ?_⟩
    intro e he
    simp only [List.append_assoc, List.mem_append] at he
    rcases he with he | he | he
    · exact (get_jedec_id_no_cmd trj e he).1
    · exact (chip_scan_no_cmd chips _ e he).1
    · rcases List.mem_singleton.mp he with rfl
      rfl
  | false =>
    refine ⟨fun ht => Bool.noConfusion ht, fun _ => ?_⟩
    have htr : main_run pagesize sFlag junk ⟨trj, false, trs⟩ =
        ((get_jedec_id trj).1 ++
          (chip_scan chips (toInt32 (get_jedec_id trj).2)).1 ++
          [Event.xferPageSz (at45_set_page_sz_send pagesize),
           Event.perr "at45_set_page_sz", Event.failPageSz], 1) := by
      simp [main_run, hfound, at45_set_page_sz, hps]
    rw [htr]
    refine ⟨rfl, by simp, ?_⟩
    intro e he
    simp only [List.append_assoc, List.mem_append] at he
    rcases he with he | he | he
    · exact (get_jedec_id_no_cmd trj e he).1
    · exact (chip_scan_no_cmd chips _ e he).1
    · rcases List.mem_cons.mp he with rfl | he
      · rfl
      · rcases List.mem_cons.mp he with rfl | he
        · rfl
        · rcases List.mem_singleton.mp he with rfl
          rfl

/-- Witness for C6 on the all-successful transport, requesting a page-size
change to 256-byte mode with status output also requested. -/
theorem C6_witness :
    (tr_ok.pagesz_ok = true →
      ∃ pre post, (main_run 0xA6 true false tr_ok).1 =
          pre ++ Event.sleepUs SPI_CMD_DELAY :: post ∧
        ∀ e ∈ pre, isStatusXfer e = false) ∧
    (tr_ok.pagesz_ok = false →
      (main_run 0xA6 true false tr_ok).2 = 1 ∧
      Event.failPageSz ∈ (main_run 0xA6 true false tr_ok).1 ∧
      ∀ e ∈ (main_run 0xA6 true false tr_ok).1, isStatusXfer e = false) :=
  C6_settling_delay 0xA6 true false tr_ok "Adesto AT45DB041E" (by decide) rfl

/-! ### C8: status read sentinel and terminal failure -/

/-- C8. `at45_get_status` returns the negative sentinel `-1` exactly when
the underlying transfer fails; on a successful transfer it returns the
16-bit value assembled, least-significant byte first, from the received
bytes after skipping one dummy byte, which lies in 0..65535.  The caller
treats a negative result as terminal for the run, with the "Failed to get
status" message. -/
theorem C8_status_sentinel (xfer : Option (List Nat))
    (hwf : ∀ recv, xfer = some recv → recv.length = 3 ∧ ∀ b ∈ recv, b < 256) :
    ((at45_get_status xfer).2 = -1 ↔ xfer = none) ∧
    ((at45_get_status xfer).2 < 0 ↔ xfer = none) ∧
    (∀ recv, xfer = some recv →
      (at45_get_status xfer).2 =
        ((le16 (recv.getD 1 0) (recv.getD 2 0) : Nat) : Int) ∧
      0 ≤ (at45_get_status xfer).2 ∧ (at45_get_status xfer).2 ≤ 65535) ∧
    (∀ (ps : Nat) (junk : Bool) (tr : Transport) (name : String),
      tr.pagesz_ok = true → tr.status = none →
      (chip_scan chips (toInt32 (get_jedec_id tr.jedec).2)).2 = some name →
      (main_run ps true junk tr).2 = 1 ∧
      Event.failStatus ∈ (main_run ps true junk tr).1) := by
  refine ⟨?_, ?_, ?_, ?_⟩
  · cases xfer with
    | none => simp [at45_get_status]
    | some recv => simp [at45_get_status]
  · cases xfer with
    | none => simp [at45_get_status]
    | some recv => simp [at45_get_status]
  · intro recv hr
    subst hr
    obtain ⟨hlen, hbytes⟩ := hwf recv rfl
    rcases recv with _ | ⟨a, _ | ⟨b, _ | ⟨c, _ | ⟨d, rest⟩⟩⟩⟩ <;>
      simp only [List.length_cons, List.length_nil] at hlen
    · omega
    · omega
    · omega
    · have hb : b < 256 := hbytes b (by simp)
      have hc : c < 256 := hbytes c (by simp)
      refine ⟨rfl, ?_, ?_⟩
      · show (0 : Int) ≤ ((le16 b c : Nat) : Int)
        exact Int.natCast_nonneg _
      · show ((le16 b c : Nat) : Int) ≤ 65535
        simp only [le16]
        push_cast
        omega
    · omega
  · intro ps junk tr name hpk hst hfound
    obtain ⟨trj, trpk, trs⟩ := tr
    simp only at hfound hpk hst
    subst hpk
    subst hst
    by_cases hps : ps ≠ 0
    · have htr : main_run ps true junk ⟨trj, true, none⟩ =
          ((get_jedec_id trj).1 ++
            (chip_scan chips (toInt32 (get_jedec_id trj).2)).1 ++
            (Event.xferPageSz (at45_set_page_sz_send ps) ::
             Event.sleepUs SPI_CMD_DELAY ::
             [Event.xferStatus status_send, Event.perr "at45_get_status",
              Event.failStatus]), 1) := by
        simp [main_run, hfound, at45_set_page_sz, hps, status_report,
          at45_get_status]
      rw [htr]
      exact ⟨rfl, by simp⟩
    · rw [not_ne_iff] at hps
      subst hps
      have htr : main_run 0 true junk ⟨trj, true, none⟩ =
          ((get_jedec_id trj).1 ++
            (chip_scan chips (toInt32 (get_jedec_id trj).2)).1 ++
            [Event.xferStatus status_send, Event.perr "at45_get_status",
             Event.failStatus], 1) := by
        simp [main_run, hfound, status_report, at45_get_status]
      rw [htr]
      exact ⟨rfl, by simp⟩

/-- Witness for C8 at a failing status transfer (for which the
well-formedness hypothesis is vacuous). -/
theorem C8_witness :
    ((at45_get_status none).2 = -1 ↔ (none : Option (List Nat)) = none) ∧
    ((at45_get_status none).2 < 0 ↔ (none : Option (List Nat)) = none) ∧
    (∀ recv, (none : Option (List Nat)) = some recv →
      (at45_get_status none).2 =
        ((le16 (recv.getD 1 0) (recv.getD 2 0) : Nat) : Int) ∧
      0 ≤ (at45_get_status none).2 ∧ (at45_get_status none).2 ≤ 65535) ∧
    (∀ (ps : Nat) (junk : Bool) (tr : Transport) (name : String),
      tr.pagesz_ok = true → tr.status = none →
      (chip_scan chips (toInt32 (get_jedec_id tr.jedec).2)).2 = some name →
      (main_run ps true junk tr).2 = 1 ∧
      Event.failStatus ∈ (main_run ps true junk tr).1) :=
  C8_status_sentinel none (fun _ h => Option.noConfusion h)

/-! ### C4: flag-less run and the uninitialized show_status (code bug) -/

/-- C4 bug evidence.  The claimed behavior — a flag-less run performs only
chip identification, emits no status output and no page-size command, and
exits 0 — is exactly what the code does when the indeterminate value the
uninitialized `show_status` happens to hold is `false` (first conjunct).
But `show_status` is never initialized when no flags are given, and when the
stack residue is `true` the very same flag-less run issues a status read and
prints status output (second conjunct): the behavior the claim promises
hinges on uninitialized memory. -/
theorem C4_uninitialized_show_status :
    ((main_run 0 false false tr_ok).2 = 0 ∧
     (main_run 0 false false tr_ok).1.all
       (fun e => !(isStatusOutput e || isPageSzXfer e)) = true) ∧
    ((main_run 0 false true tr_ok).2 = 0 ∧
     (main_run 0 false true tr_ok).1.any isStatusOutput = true) := by
  refine ⟨⟨rfl, ?_⟩, rfl, ?_⟩ <;> decide

end AT45
